import Mathlib

/-!
Shallow embedding of the mita visualization's rendering core
(https://github.com/MaxGhenis/mita): the data-derivation utilities
(`mergeData` / `filterScatterData` / `computeBoundaryDistricts` from
`dataUtils.ts`), the morph renderer (`MorphRenderer.ts`), the phase
dispatch of `UnifiedViz.tsx`, and the distance scale.  Numeric values are
modelled over `ℚ`; the transcendental helpers used only inside the
polygon-vertex morph (`Math.sqrt`, `Math.atan2`, `Math.cos`, `Math.sin`)
are abstracted as an oracle parameter, since no verified claim depends on
their values.
-/

namespace Mita

/-- The three outcome variables of the visualization (`OutcomeType` in
`types.ts`). -/
inductive OutcomeType where
  | stunting
  | consumption
  | roads
deriving DecidableEq, Repr

/-- The four scatter phases (`ScatterPhase` in `types.ts`):
dots / ols / naive-effect / effect. -/
inductive ScatterPhase where
  | dots
  | ols
  | naiveEffect
  | effect
deriving DecidableEq, Repr

/-- A merged district record (`MergedDistrictData` in `types.ts`), as
produced by `mergeData` in `dataUtils.ts`: polygon data (`ubigeo`,
`mita`, `polygon`) joined with the outcome table (`distance`, `isInside`,
`consumption`, `stunting`, `roads`) and the derived centroid.  Polygon
vertices are (lat, lon) pairs as in `districtPolygons.json`. -/
structure MergedDistrictData where
  ubigeo : ℕ
  mita : ℕ
  polygon : List (ℚ × ℚ)
  centroidLon : ℚ
  centroidLat : ℚ
  distance : Option ℚ
  isInside : Bool
  consumption : Option ℚ
  stunting : Option ℚ
  roads : Option ℚ
deriving DecidableEq, Repr

/-- A scatter point (`ScatterDataPoint` in `types.ts`): a merged district
record extended with the derived scatter coordinates. -/
structure ScatterDataPoint where
  ubigeo : ℕ
  mita : ℕ
  polygon : List (ℚ × ℚ)
  centroidLon : ℚ
  centroidLat : ℚ
  distance : Option ℚ
  isInside : Bool
  consumption : Option ℚ
  stunting : Option ℚ
  roads : Option ℚ
  scatterX : ℚ
  scatterY : ℚ
  stuntingY : Option ℚ
  consumptionY : Option ℚ
  roadsY : Option ℚ
deriving DecidableEq, Repr

/-- `d[currentOutcome]` — the dynamic field access in `filterScatterData`
(`dataUtils.ts`). -/
def getOutcomeValue (d : MergedDistrictData) (o : OutcomeType) : Option ℚ :=
  match o with
  | OutcomeType.stunting => d.stunting
  | OutcomeType.consumption => d.consumption
  | OutcomeType.roads => d.roads

/-- The per-outcome minimum qualifying value of `filterScatterData`
(`dataUtils.ts`): roads can legitimately be 0, while stunting/consumption
zeros are treated as missing data, so they must reach 0.001. -/
def minOutcomeValue (o : OutcomeType) : ℚ :=
  if o = OutcomeType.roads then 0 else 1/1000

/-- The filter predicate of `filterScatterData` (`dataUtils.ts`):
`d.distance !== null && value !== null && value >= minValue`. -/
def keepForOutcome (o : OutcomeType) (d : MergedDistrictData) : Bool :=
  d.distance.isSome && (getOutcomeValue d o).isSome &&
    decide (minOutcomeValue o ≤ (getOutcomeValue d o).getD 0)

/-- The map step of `filterScatterData` (`dataUtils.ts`): spreads the
district record and adds `scatterX` (the sign-flipped distance),
`scatterY` (stunting rescaled to percentage points) and the three
per-outcome Y candidates. -/
def toScatterPoint (o : OutcomeType) (d : MergedDistrictData) : ScatterDataPoint :=
  let rawValue := (getOutcomeValue d o).getD 0
  let value := if o = OutcomeType.stunting then rawValue * 100 else rawValue
  let flippedDistance :=
    if d.isInside then |d.distance.getD 0| else -|d.distance.getD 0|
  { ubigeo := d.ubigeo
    mita := d.mita
    polygon := d.polygon
    centroidLon := d.centroidLon
    centroidLat := d.centroidLat
    distance := d.distance
    isInside := d.isInside
    consumption := d.consumption
    stunting := d.stunting
    roads := d.roads
    scatterX := flippedDistance
    scatterY := value
    stuntingY := d.stunting.map (fun s => s * 100)
    consumptionY := d.consumption
    roadsY := d.roads }

/-- `filterScatterData` (`dataUtils.ts`): filter by the per-outcome
validity rule, then derive the scatter coordinates. -/
def filterScatterData (mergedData : List MergedDistrictData) (currentOutcome : OutcomeType) :
    List ScatterDataPoint :=
  (mergedData.filter (keepForOutcome currentOutcome)).map (toScatterPoint currentOutcome)

/-- `getOutcomeY` (`dataUtils.ts`): select this point's Y candidate for an
outcome. -/
def getOutcomeY (d : ScatterDataPoint) (o : OutcomeType) : Option ℚ :=
  match o with
  | OutcomeType.stunting => d.stuntingY
  | OutcomeType.consumption => d.consumptionY
  | OutcomeType.roads => d.roadsY

/-- Modelled from the spec: `createXScale` of `scaleUtils.ts` is not in
the source tree (only its test file is).  Spec §4.3: a linear scale with
fixed domain [-50, 50] mapped to [0, innerWidth], clamped at evaluation
time, so out-of-domain inputs land on the nearest range endpoint. -/
def createXScale (innerWidth : ℚ) : ℚ → ℚ :=
  fun x => (max (-50) (min 50 x) + 50) / 100 * innerWidth

/-- A concrete mita-side district used to evaluate the theorems on
closed inputs (the spec's §8 scenario: id 7, inside, distance 25,
stunting 0.12). -/
def sampleMerged : MergedDistrictData :=
  { ubigeo := 7
    mita := 1
    polygon := [(0, 0), (0, 1), (1, 1)]
    centroidLon := -71
    centroidLat := -14
    distance := some 25
    isInside := true
    consumption := none
    stunting := some (12/100)
    roads := none }

/-- The scatter point derived from `sampleMerged` under the stunting
outcome. -/
def samplePoint : ScatterDataPoint :=
  toScatterPoint OutcomeType.stunting sampleMerged

/-- `easeInOutQuad` (`MorphRenderer.ts`):
`t < 0.5 ? 2*t*t : 1 - Math.pow(-2*t + 2, 2)/2`. -/
def easeInOutQuad (t : ℚ) : ℚ :=
  if t < 1/2 then 2 * t * t else 1 - (-2 * t + 2)^2 / 2

/-- Modelled from the spec: `MORPH_TIMING.start` of `constants.ts` is
not in the source tree.  Spec §4.4: the map path ends at `t = 0.3` and
the morphing sub-progress starts there. -/
def morphStart : ℚ := 3/10

/-- Modelled from the spec: `MORPH_TIMING.end` of `constants.ts` is not
in the source tree.  Spec §4.4: the full-scatter path begins at `t = 1`,
where the morphing sub-progress reaches 1. -/
def morphEnd : ℚ := 1

/-- The morph sub-progress computed in `UnifiedViz.tsx`:
`Math.min((t - MORPH_TIMING.start) / (MORPH_TIMING.end - MORPH_TIMING.start), 1)`. -/
def morphTOf (t : ℚ) : ℚ :=
  min ((t - morphStart) / (morphEnd - morphStart)) 1

/-- The transcendental helpers used by the polygon-vertex morph
(`Math.sqrt`, `Math.cos`, `Math.sin`, `Math.atan2`), abstracted: no
verified claim depends on their values. -/
structure TrigOracle where
  sqrtQ : ℚ → ℚ
  cosQ : ℚ → ℚ
  sinQ : ℚ → ℚ
  atan2Q : ℚ → ℚ → ℚ

/-- The `cx` attribute of `renderMorphingDots` (`MorphRenderer.ts`): a
failed projection falls back to map coordinate 0, the interpolated value
is clamped to `[0, xScale.range()[1]]`. -/
def morphDotCx (proj : ℚ × ℚ → Option (ℚ × ℚ)) (xScale : ℚ → ℚ) (xRangeMax : ℚ)
    (easedMorphT : ℚ) (d : ScatterDataPoint) : ℚ :=
  let geoCoord := proj (d.centroidLon, d.centroidLat)
  let mapX := match geoCoord with
    | some c => c.1
    | none => 0
  let scatterX := xScale d.scatterX
  let interpolatedX := mapX + (scatterX - mapX) * easedMorphT
  max 0 (min xRangeMax interpolatedX)

/-- The `cy` attribute of `renderMorphingDots` (`MorphRenderer.ts`):
clamped to `[0, yScale.range()[0]]`. -/
def morphDotCy (proj : ℚ × ℚ → Option (ℚ × ℚ)) (yScale : ℚ → ℚ) (yRangeZero : ℚ)
    (easedMorphT : ℚ) (d : ScatterDataPoint) : ℚ :=
  let geoCoord := proj (d.centroidLon, d.centroidLat)
  let mapY := match geoCoord with
    | some c => c.2
    | none => 0
  let scatterY := yScale d.scatterY
  let interpolatedY := mapY + (scatterY - mapY) * easedMorphT
  max 0 (min yRangeZero interpolatedY)

/-- The `cx`/`cy` attributes of `renderFullScatterDots`
(`MorphRenderer.ts`): final scatter coordinates, clamped to the plot
bounds. -/
def fullScatterDotPos (xScale yScale : ℚ → ℚ) (xRangeMax yRangeZero : ℚ)
    (d : ScatterDataPoint) : ℚ × ℚ :=
  (max 0 (min xRangeMax (xScale d.scatterX)),
   max 0 (min yRangeZero (yScale d.scatterY)))

/-- The `d` attribute computation of `renderMorphingDistricts`
(`MorphRenderer.ts`): `none` models the empty path string returned when
the centroid fails to project or fewer than 3 polygon vertices project;
otherwise the morphed vertex ring. -/
def renderMorphingDistrictPath (trig : TrigOracle) (proj : ℚ × ℚ → Option (ℚ × ℚ))
    (xScale yScale : ℚ → ℚ) (easedMorphT : ℚ) (d : ScatterDataPoint) :
    Option (List (ℚ × ℚ)) :=
  match proj (d.centroidLon, d.centroidLat) with
  | none => none
  | some centroid =>
    let targetX := xScale d.scatterX
    let targetY := yScale d.scatterY
    let currentCenterX := centroid.1 + (targetX - centroid.1) * easedMorphT
    let currentCenterY := centroid.2 + (targetY - centroid.2) * easedMorphT
    let projectedPoints := d.polygon.filterMap (fun p => proj (p.2, p.1))
    if projectedPoints.length < 3 then none
    else
      let districtScale := 1 - easedMorphT
      let roundness := easedMorphT
      let avgRadius :=
        (projectedPoints.map (fun p =>
          trig.sqrtQ ((p.1 - centroid.1) * (p.1 - centroid.1) +
            (p.2 - centroid.2) * (p.2 - centroid.2)))).sum / projectedPoints.length
      let targetRadius := 5 + (avgRadius - 5) * districtScale
      some (projectedPoints.map (fun projected =>
        let dx := projected.1 - centroid.1
        let dy := projected.2 - centroid.2
        let angle := trig.atan2Q dy dx
        let circleX := trig.cosQ angle * targetRadius
        let circleY := trig.sinQ angle * targetRadius
        let blendedX := dx * (1 - roundness) * districtScale + circleX * roundness * districtScale
        let blendedY := dy * (1 - roundness) * districtScale + circleY * roundness * districtScale
        (currentCenterX + blendedX, currentCenterY + blendedY)))

/-- The morphing-district layer: one path contribution per scatter
point, as the keyed join of `renderMorphingDistricts`. -/
def renderMorphDistrictsLayer (trig : TrigOracle) (proj : ℚ × ℚ → Option (ℚ × ℚ))
    (xScale yScale : ℚ → ℚ) (easedMorphT : ℚ) (data : List ScatterDataPoint) :
    List (Option (List (ℚ × ℚ))) :=
  data.map (renderMorphingDistrictPath trig proj xScale yScale easedMorphT)

/-- The morphing-dot layer (`renderMorphingDots`): empty before the dot
fade-in threshold (the early return on
`morphT <= MORPH_TIMING.dotFadeStart`), otherwise one clamped marker
center per scatter point. -/
def renderMorphingDotsLayer (proj : ℚ × ℚ → Option (ℚ × ℚ)) (xScale yScale : ℚ → ℚ)
    (xRangeMax yRangeZero dotFadeStart morphT easedMorphT : ℚ)
    (data : List ScatterDataPoint) : List (ℚ × ℚ) :=
  if morphT ≤ dotFadeStart then []
  else data.map (fun d =>
    (morphDotCx proj xScale xRangeMax easedMorphT d,
     morphDotCy proj yScale yRangeZero easedMorphT d))

/-- One frame of the morphing path as assembled by `renderMorph`
(`MorphRenderer.ts`): `easedMorphT = easeInOutQuad(morphT)` is computed
once and drives both the district geometry and the marker centers. -/
def renderMorphFrame (trig : TrigOracle) (proj : ℚ × ℚ → Option (ℚ × ℚ))
    (xScale yScale : ℚ → ℚ) (xRangeMax yRangeZero dotFadeStart : ℚ)
    (data : List ScatterDataPoint) (t : ℚ) :
    List (Option (List (ℚ × ℚ))) × List (ℚ × ℚ) :=
  let morphT := morphTOf t
  let easedMorphT := easeInOutQuad morphT
  (renderMorphDistrictsLayer trig proj xScale yScale easedMorphT data,
   renderMorphingDotsLayer proj xScale yScale xRangeMax yRangeZero dotFadeStart
     morphT easedMorphT data)

/-- `isOutcomeOnlyTransition` (`UnifiedViz.tsx`):
`t >= 1 && prevOutcomeRef.current !== currentOutcome` (the additional
`!== ''` guard is vacuous since the ref is initialised to a valid
outcome). -/
def outcomeChangedFlag (t : ℚ) (prevOutcome currentOutcome : OutcomeType) : Bool :=
  decide (1 ≤ t) && decide (prevOutcome ≠ currentOutcome)

/-- `isPhaseTransition` (`UnifiedViz.tsx`):
`t >= 1 && prevScatterPhaseRef.current !== scatterPhase`, with the same
vacuous emptiness guard. -/
def phaseChangedFlag (t : ℚ) (prevPhase currentPhase : ScatterPhase) : Bool :=
  decide (1 ≤ t) && decide (prevPhase ≠ currentPhase)

/-- The five render paths of the frame state machine. -/
inductive RenderPath where
  | map
  | outcomeTransition
  | phaseSettle
  | morphing
  | fullScatter
deriving DecidableEq, Repr

/-- The per-frame path dispatch: `UnifiedViz.tsx` renders the map for
`t < 0.3` and otherwise calls `renderMorph`, whose branch chain
(`MorphRenderer.ts`) picks the outcome-transition, phase-settle,
morphing or full-scatter path from `morphT` and the two edge flags. -/
def selectRenderPath (t : ℚ) (isOutcomeTransition isPhaseTransition : Bool) : RenderPath :=
  if t < 3/10 then RenderPath.map
  else if 1 ≤ morphTOf t ∧ isOutcomeTransition = true then RenderPath.outcomeTransition
  else if 1 ≤ morphTOf t ∧ isPhaseTransition = true then RenderPath.phaseSettle
  else if morphTOf t < 1 then RenderPath.morphing
  else RenderPath.fullScatter

/-- `VERTEX_TOLERANCE` (`dataUtils.ts`): 0.001 degrees, roughly 100 m at
Peru's latitude. -/
def VERTEX_TOLERANCE : ℚ := 1/1000

/-- `verticesMatch` (`dataUtils.ts`): componentwise distance strictly
below the tolerance. -/
def verticesMatch (v1 v2 : ℚ × ℚ) : Bool :=
  decide (|v1.1 - v2.1| < VERTEX_TOLERANCE) &&
    decide (|v1.2 - v2.2| < VERTEX_TOLERANCE)

/-- A polygon bounding box as computed by `getBBox` inside
`polygonsShareEdge` (`dataUtils.ts`). -/
structure BBox where
  minLat : ℚ
  maxLat : ℚ
  minLon : ℚ
  maxLon : ℚ
deriving DecidableEq, Repr

/-- `getBBox` (`dataUtils.ts`): the source initialises the bounds with
±Infinity and folds over every vertex; for a nonempty ring that equals
folding from the first vertex.  An empty ring produces an infinite,
never-overlapping box, modelled as `none`. -/
def getBBox : List (ℚ × ℚ) → Option BBox
  | [] => none
  | v :: rest => some (rest.foldl
      (fun b p =>
        { minLat := min b.minLat p.1
          maxLat := max b.maxLat p.1
          minLon := min b.minLon p.2
          maxLon := max b.maxLon p.2 })
      { minLat := v.1, maxLat := v.1, minLon := v.2, maxLon := v.2 })

/-- The bounding-box overlap prefilter of `polygonsShareEdge`
(`dataUtils.ts`), with tolerance margin `VERTEX_TOLERANCE * 2`. -/
def bboxOverlap (p1 p2 : List (ℚ × ℚ)) : Bool :=
  match getBBox p1, getBBox p2 with
  | some b1, some b2 =>
    let tol := VERTEX_TOLERANCE * 2
    !(decide (b1.maxLat + tol < b2.minLat) || decide (b2.maxLat + tol < b1.minLat) ||
      decide (b1.maxLon + tol < b2.minLon) || decide (b2.maxLon + tol < b1.minLon))
  | _, _ => false

/-- The number of matching vertex pairs counted by the nested loop of
`polygonsShareEdge` (`dataUtils.ts`); the loop's early exit at 2 is
extensionally `2 ≤ sharedVertexCount`. -/
def sharedVertexCount (p1 p2 : List (ℚ × ℚ)) : ℕ :=
  ((p1.product p2).filter (fun vv => verticesMatch vv.1 vv.2)).length

/-- `polygonsShareEdge` (`dataUtils.ts`): bounding boxes overlap and at
least two vertex pairs match within tolerance. -/
def polygonsShareEdge (p1 p2 : List (ℚ × ℚ)) : Bool :=
  bboxOverlap p1 p2 && decide (2 ≤ sharedVertexCount p1 p2)

/-- `computeBoundaryDistricts` (`dataUtils.ts`): for every
(mita, non-mita) district pair sharing an edge, both ubigeos enter the
boundary set. -/
def computeBoundaryDistricts (mergedData : List MergedDistrictData) : Finset ℕ :=
  ((mergedData.filter (fun d => decide (d.mita = 1))).product
    (mergedData.filter (fun d => decide (d.mita = 0)))).foldl
    (fun s ab =>
      if polygonsShareEdge ab.1.polygon ab.2.polygon
      then insert ab.1.ubigeo (insert ab.2.ubigeo s)
      else s)
    ∅

/-- A concrete mita district sharing the vertices (0,0) and (0,1) with
`sampleNonMitaDistrict`. -/
def sampleMitaDistrict : MergedDistrictData :=
  { ubigeo := 101
    mita := 1
    polygon := [(0, 0), (0, 1), (1, 1)]
    centroidLon := 0
    centroidLat := 0
    distance := some 5
    isInside := true
    consumption := none
    stunting := none
    roads := none }

/-- A concrete non-mita district adjacent to `sampleMitaDistrict`. -/
def sampleNonMitaDistrict : MergedDistrictData :=
  { ubigeo := 202
    mita := 0
    polygon := [(0, 0), (0, 1), (-1, 0)]
    centroidLon := 0
    centroidLat := 0
    distance := some (-5)
    isInside := false
    consumption := none
    stunting := none
    roads := none }

/-- The two possible parents of a rendered SVG primitive: the svg root
or the `.main-group` container. -/
inductive SvgParent where
  | svgRoot
  | mainGroup
deriving DecidableEq, Repr

/-- The margin offsets applied by the main group's transform. -/
structure Margin where
  left : ℚ
  top : ℚ
deriving DecidableEq, Repr

/-- The transform of the `.main-group` container created in
`UnifiedViz.tsx`: `translate(margin.left, margin.top)` — the single
transform-bearing element of the scene. -/
def mainGroupTranslate (m : Margin) : ℚ × ℚ :=
  (m.left, m.top)

/-- A rendered visual primitive: which element it was appended to,
its class, any translation of its own (`none` when no `transform`
attribute is set), and its position. -/
structure Primitive where
  parent : SvgParent
  cls : String
  ownTranslate : Option (ℚ × ℚ)
  x : ℚ
  y : ℚ
deriving DecidableEq, Repr

/-- The markers appended by `renderFullScatterDots` (`MorphRenderer.ts`):
circles joined on `g` (the main group) with no transform attribute of
their own, at the clamped final scatter coordinates. -/
def fullScatterDotPrimitives (xScale yScale : ℚ → ℚ) (xRangeMax yRangeZero : ℚ)
    (data : List ScatterDataPoint) : List Primitive :=
  data.map (fun d =>
    { parent := SvgParent.mainGroup
      cls := "morph-dot"
      ownTranslate := none
      x := (fullScatterDotPos xScale yScale xRangeMax yRangeZero d).1
      y := (fullScatterDotPos xScale yScale xRangeMax yRangeZero d).2 })

/-- The markers appended by `renderMorphingDots` (`MorphRenderer.ts`):
circles joined on `g` with no transform attribute of their own. -/
def morphingDotPrimitives (proj : ℚ × ℚ → Option (ℚ × ℚ)) (xScale yScale : ℚ → ℚ)
    (xRangeMax yRangeZero easedMorphT : ℚ) (data : List ScatterDataPoint) :
    List Primitive :=
  data.map (fun d =>
    { parent := SvgParent.mainGroup
      cls := "morph-dot"
      ownTranslate := none
      x := morphDotCx proj xScale xRangeMax easedMorphT d
      y := morphDotCy proj yScale yRangeZero easedMorphT d })

/-- The markers positioned by `renderOutcomeTransition`
(`MorphRenderer.ts`): joined on `g`, no transform of their own, clamped
x, and y from the target outcome's value (falling back to mid-height,
`innerHeight / 2`, when the value is missing — `yRangeZero` is
`yScale.range()[0] = innerHeight`). -/
def outcomeTransitionDotPrimitives (xScale yScale : ℚ → ℚ) (xRangeMax yRangeZero : ℚ)
    (currentOutcome : OutcomeType) (allData : List ScatterDataPoint) : List Primitive :=
  allData.map (fun d =>
    { parent := SvgParent.mainGroup
      cls := "morph-dot"
      ownTranslate := none
      x := max 0 (min xRangeMax (xScale d.scatterX))
      y := match getOutcomeY d currentOutcome with
        | some yVal => max 0 (min yRangeZero (yScale yVal))
        | none => yRangeZero / 2 })

/-- Modelled from the spec: the implementation of `renderFittedLines` is
not in the source tree (`UnifiedViz.tsx` only passes it `svg` and
`margin`).  Spec §4.5 requires fitted lines to be children of the single
transform-bearing container with no redundant translation of their own. -/
def fittedLinePrimitives (endpoints : List (ℚ × ℚ)) : List Primitive :=
  endpoints.map (fun c =>
    { parent := SvgParent.mainGroup
      cls := "fitted-line"
      ownTranslate := none
      x := c.1
      y := c.2 })

/-- Modelled from the spec: `renderScatterBackgrounds`,
`renderScatterAxes` and `renderMap` are not in the source tree
(`UnifiedViz.tsx` passes each the main group `g`).  Spec §4.5: the
background region rectangles, axis ticks and district polygons are
children of the single transform-bearing container with no translation
of their own. -/
def staticLayerPrimitives (layerClass : String) (coords : List (ℚ × ℚ)) :
    List Primitive :=
  coords.map (fun c =>
    { parent := SvgParent.mainGroup
      cls := layerClass
      ownTranslate := none
      x := c.1
      y := c.2 })

end Mita

namespace Mita

/-- claim C2: for every real input, the distance scale stays inside
[0, innerWidth], any input outside the fixed domain [-50, 50] clamps to
the nearest range endpoint, and the fixed points map to 0, innerWidth/2
and innerWidth. -/
theorem createXScale_clamped_spec (w : ℚ) (hw : 0 ≤ w) :
    (∀ x : ℚ, 0 ≤ createXScale w x ∧ createXScale w x ≤ w) ∧
    (∀ x : ℚ, x ≤ -50 → createXScale w x = 0) ∧
    (∀ x : ℚ, 50 ≤ x → createXScale w x = w) ∧
    createXScale w (-50) = 0 ∧ createXScale w 0 = w / 2 ∧ createXScale w 50 = w := by
  have hbounds : ∀ x : ℚ, 0 ≤ createXScale w x ∧ createXScale w x ≤ w := by
    intro x
    unfold createXScale
    set c := max (-50 : ℚ) (min 50 x) with hc
    have hlo : (-50 : ℚ) ≤ c := le_max_left _ _
    have hhi : c ≤ 50 := by
      have : min (50 : ℚ) x ≤ 50 := min_le_left _ _
      simp only [hc]
      exact max_le (by norm_num) this
    constructor
    · have hnum : (0 : ℚ) ≤ (c + 50) / 100 := by linarith
      exact mul_nonneg hnum hw
    · have hnum : (c + 50) / 100 ≤ 1 := by linarith
      calc (c + 50) / 100 * w ≤ 1 * w := mul_le_mul_of_nonneg_right hnum hw
        _ = w := one_mul w
  refine ⟨hbounds, ?_, ?_, ?_, ?_, ?_⟩
  · intro x hx
    unfold createXScale
    have h1 : min (50 : ℚ) x ≤ -50 := le_trans (min_le_right _ _) hx
    have h2 : max (-50 : ℚ) (min 50 x) = -50 := max_eq_left h1
    rw [h2]; ring
  · intro x hx
    unfold createXScale
    have h1 : min (50 : ℚ) x = 50 := min_eq_left hx
    have h2 : max (-50 : ℚ) (50 : ℚ) = 50 := by norm_num
    rw [h1, h2]; ring
  · unfold createXScale; norm_num
  · unfold createXScale; norm_num; ring
  · unfold createXScale; norm_num

/-- Witness for C2 at the concrete inner width 610 used by the tests. -/
theorem createXScale_clamped_spec_witness :
    createXScale 610 (-50) = 0 ∧ createXScale 610 0 = 610 / 2 ∧
    createXScale 610 50 = 610 ∧ createXScale 610 (-60) = 0 ∧
    createXScale 610 100 = 610 ∧ 0 ≤ createXScale 610 25 ∧ createXScale 610 25 ≤ 610 := by
  have h := createXScale_clamped_spec 610 (by norm_num)
  exact ⟨h.2.2.2.1, h.2.2.2.2.1, h.2.2.2.2.2, h.2.1 (-60) (by norm_num),
    h.2.2.1 100 (by norm_num), (h.1 25).1, (h.1 25).2⟩

/-- claim C3: every derived scatter point carries
`scatterX = abs(distance)` when the district is inside the treatment
boundary and `scatterX = -abs(distance)` otherwise, so inside points have
`scatterX ≥ 0` and outside points have `scatterX ≤ 0`. -/
theorem scatterX_sign_flip (data : List MergedDistrictData) (o : OutcomeType) :
    ∀ p ∈ filterScatterData data o,
      (∃ dist : ℚ, p.distance = some dist ∧
        p.scatterX = if p.isInside then |dist| else -|dist|) ∧
      (p.isInside = true → 0 ≤ p.scatterX) ∧
      (p.isInside = false → p.scatterX ≤ 0) := by
  intro p hp
  simp only [filterScatterData, List.mem_map] at hp
  obtain ⟨d, hd, rfl⟩ := hp
  have hkeep := (List.mem_filter.mp hd).2
  simp only [keepForOutcome, Bool.and_eq_true] at hkeep
  obtain ⟨dist, hdist⟩ := Option.isSome_iff_exists.mp hkeep.1.1
  refine ⟨⟨dist, ?_, ?_⟩, ?_, ?_⟩
  · simp [toScatterPoint, hdist]
  · simp [toScatterPoint, hdist]
  · intro h
    have hin : d.isInside = true := by simpa [toScatterPoint] using h
    simp only [toScatterPoint, hdist, hin, if_true]
    exact abs_nonneg _
  · intro h
    have hin : d.isInside = false := by simpa [toScatterPoint] using h
    simp only [toScatterPoint, hdist, hin, Bool.false_eq_true, if_false]
    exact neg_nonpos_of_nonneg (abs_nonneg _)

/-- Witness for C3 on the concrete inside district `sampleMerged`. -/
theorem scatterX_sign_flip_witness :
    0 ≤ samplePoint.scatterX ∧ samplePoint.scatterX = 25 := by
  have hif : minOutcomeValue OutcomeType.stunting = 1/1000 := by
    unfold minOutcomeValue
    rw [if_neg (by decide : ¬(OutcomeType.stunting = OutcomeType.roads))]
  have hk : keepForOutcome OutcomeType.stunting sampleMerged = true := by
    norm_num [keepForOutcome, getOutcomeValue, sampleMerged, hif]
  have hmem : samplePoint ∈ filterScatterData [sampleMerged] OutcomeType.stunting := by
    simp [filterScatterData, List.filter_cons, hk, samplePoint]
  have h := scatterX_sign_flip [sampleMerged] OutcomeType.stunting samplePoint hmem
  refine ⟨h.2.1 rfl, ?_⟩
  norm_num [samplePoint, toScatterPoint, sampleMerged]

/-- claim C8: a district appears in the outcome-filtered scatter set if
and only if its distance is non-null, its value for the outcome is
non-null, and the value passes the per-outcome zero rule — for roads a
value of exactly 0 qualifies, while for stunting and consumption the
value must be at least 0.001. -/
theorem filterScatterData_membership (data : List MergedDistrictData) (o : OutcomeType)
    (d : MergedDistrictData) (hd : d ∈ data)
    (hnodup : (data.map (fun x => x.ubigeo)).Nodup) :
    (∃ p ∈ filterScatterData data o, p.ubigeo = d.ubigeo) ↔
      (d.distance ≠ none ∧ ∃ v, getOutcomeValue d o = some v ∧
        (if o = OutcomeType.roads then (0 : ℚ) else 1/1000) ≤ v) := by
  constructor
  · rintro ⟨p, hp, hub⟩
    simp only [filterScatterData, List.mem_map] at hp
    obtain ⟨e, he, rfl⟩ := hp
    have hemem := (List.mem_filter.mp he).1
    have hkeep := (List.mem_filter.mp he).2
    have hubeq : e.ubigeo = d.ubigeo := by simpa [toScatterPoint] using hub
    have heq : e = d := List.inj_on_of_nodup_map hnodup hemem hd hubeq
    subst heq
    simp only [keepForOutcome, Bool.and_eq_true, decide_eq_true_eq] at hkeep
    obtain ⟨⟨hdist, hval⟩, hge⟩ := hkeep
    obtain ⟨v, hv⟩ := Option.isSome_iff_exists.mp hval
    refine ⟨Option.isSome_iff_ne_none.mp hdist, v, hv, ?_⟩
    simpa [minOutcomeValue, hv] using hge
  · rintro ⟨hdist, v, hv, hge⟩
    refine ⟨toScatterPoint o d, ?_, by simp [toScatterPoint]⟩
    simp only [filterScatterData, List.mem_map]
    refine ⟨d, List.mem_filter.mpr ⟨hd, ?_⟩, rfl⟩
    have hmin : minOutcomeValue o ≤ v := by unfold minOutcomeValue; exact hge
    simp [keepForOutcome, hv, Option.isSome_iff_ne_none, hdist, hmin]

/-- Witness for C8: district 7 with stunting 0.12 and distance 25 appears
in the stunting-filtered scatter set. -/
theorem filterScatterData_membership_witness :
    ∃ p ∈ filterScatterData [sampleMerged] OutcomeType.stunting, p.ubigeo = 7 := by
  have h := filterScatterData_membership [sampleMerged] OutcomeType.stunting
    sampleMerged (by simp) (by simp)
  have h2 := h.mpr ⟨by simp [sampleMerged], 12/100, rfl, by
    rw [if_neg (by decide : ¬(OutcomeType.stunting = OutcomeType.roads))]; norm_num⟩
  simpa [sampleMerged] using h2

/-- The coordinate clamp `Math.max(0, Math.min(hi, x))` stays inside
`[0, hi]` whenever `0 ≤ hi`. -/
lemma clamp_mem (hi x : ℚ) (h : 0 ≤ hi) :
    0 ≤ max 0 (min hi x) ∧ max 0 (min hi x) ≤ hi :=
  ⟨le_max_left _ _, max_le h (min_le_left _ _)⟩

/-- The coordinate clamp is the identity on in-bounds values. -/
lemma clamp_id (hi x : ℚ) (h0 : 0 ≤ x) (h1 : x ≤ hi) :
    max 0 (min hi x) = x := by
  rw [min_eq_right h1, max_eq_right h0]

/-- `morphT` saturates at 1 once `t` reaches 1. -/
lemma morphTOf_eq_one (t : ℚ) (ht : 1 ≤ t) : morphTOf t = 1 := by
  unfold morphTOf morphStart morphEnd
  have h1 : (1 : ℚ) ≤ (t - 3/10) / (1 - 3/10) := by
    rw [le_div_iff₀ (by norm_num)]
    linarith
  exact min_eq_right h1

/-- `morphT` stays below 1 while `t` is below 1. -/
lemma morphTOf_lt_one (t : ℚ) (ht : t < 1) : morphTOf t < 1 := by
  unfold morphTOf morphStart morphEnd
  have h1 : (t - 3/10) / (1 - 3/10) < 1 := by
    rw [div_lt_one (by norm_num)]
    linarith
  exact lt_of_le_of_lt (min_le_left _ _) h1

/-- claim C4: the frame dispatch — map for `t < 0.3`; outcome-transition
for `t ≥ 0.3` with the outcome edge flag; phase-settle for `t ≥ 0.3`
with only the phase edge flag; morphing for `0.3 ≤ t < 1` without edge
flags; full-scatter for `t ≥ 1` without edge flags, where the marker
position is the final clamped scatter coordinate (equal to the morph
interpolation at sub-progress 1, i.e. no interpolation remains); the
outcome edge flag holds exactly when `t` has reached 1 and the active
outcome differs from the previously rendered one. -/
theorem renderPath_dispatch (t : ℚ) (pO cO : OutcomeType) (pP cP : ScatterPhase) :
    (outcomeChangedFlag t pO cO = true ↔ (1 ≤ t ∧ pO ≠ cO)) ∧
    (t < 3/10 →
      selectRenderPath t (outcomeChangedFlag t pO cO) (phaseChangedFlag t pP cP) =
        RenderPath.map) ∧
    (3/10 ≤ t → outcomeChangedFlag t pO cO = true →
      selectRenderPath t (outcomeChangedFlag t pO cO) (phaseChangedFlag t pP cP) =
        RenderPath.outcomeTransition) ∧
    (3/10 ≤ t → outcomeChangedFlag t pO cO = false → phaseChangedFlag t pP cP = true →
      selectRenderPath t (outcomeChangedFlag t pO cO) (phaseChangedFlag t pP cP) =
        RenderPath.phaseSettle) ∧
    (3/10 ≤ t → t < 1 →
      outcomeChangedFlag t pO cO = false → phaseChangedFlag t pP cP = false →
      selectRenderPath t (outcomeChangedFlag t pO cO) (phaseChangedFlag t pP cP) =
        RenderPath.morphing) ∧
    (1 ≤ t →
      outcomeChangedFlag t pO cO = false → phaseChangedFlag t pP cP = false →
      selectRenderPath t (outcomeChangedFlag t pO cO) (phaseChangedFlag t pP cP) =
        RenderPath.fullScatter) ∧
    (∀ (proj : ℚ × ℚ → Option (ℚ × ℚ)) (xScale yScale : ℚ → ℚ) (xMax yZero : ℚ)
       (d : ScatterDataPoint),
      (morphDotCx proj xScale xMax 1 d, morphDotCy proj yScale yZero 1 d) =
        fullScatterDotPos xScale yScale xMax yZero d) := by
  refine ⟨?_, ?_, ?_, ?_, ?_, ?_, ?_⟩
  · simp [outcomeChangedFlag]
  · intro hlt
    unfold selectRenderPath
    rw [if_pos hlt]
  · intro hge hoc
    have ht1 : (1 : ℚ) ≤ t := by
      have := (by simp [outcomeChangedFlag] at hoc; exact hoc : 1 ≤ t ∧ pO ≠ cO)
      exact this.1
    unfold selectRenderPath
    rw [if_neg (by linarith), if_pos ⟨by rw [morphTOf_eq_one t ht1], hoc⟩]
  · intro hge hoc hpc
    have ht1 : (1 : ℚ) ≤ t := by
      have := (by simp [phaseChangedFlag] at hpc; exact hpc : 1 ≤ t ∧ pP ≠ cP)
      exact this.1
    unfold selectRenderPath
    rw [if_neg (by linarith), if_neg (by simp [hoc]),
      if_pos ⟨by rw [morphTOf_eq_one t ht1], hpc⟩]
  · intro hge hlt hoc hpc
    unfold selectRenderPath
    rw [if_neg (by linarith), if_neg (by simp [hoc]), if_neg (by simp [hpc]),
      if_pos (morphTOf_lt_one t hlt)]
  · intro ht1 hoc hpc
    unfold selectRenderPath
    rw [if_neg (by linarith), if_neg (by simp [hoc]), if_neg (by simp [hpc]),
      if_neg (by rw [morphTOf_eq_one t ht1]; exact lt_irrefl 1)]
  · intro proj xScale yScale xMax yZero d
    unfold morphDotCx morphDotCy fullScatterDotPos
    cases hp : proj (d.centroidLon, d.centroidLat) with
    | none =>
      simp only [hp]
      rw [show (0 : ℚ) + (xScale d.scatterX - 0) * 1 = xScale d.scatterX by ring,
        show (0 : ℚ) + (yScale d.scatterY - 0) * 1 = yScale d.scatterY by ring]
    | some c =>
      simp only [hp]
      rw [show c.1 + (xScale d.scatterX - c.1) * 1 = xScale d.scatterX by ring,
        show c.2 + (yScale d.scatterY - c.2) * 1 = yScale d.scatterY by ring]

/-- Witness for C4 at concrete frames: `t = 0.2` maps, `t = 1` with an
outcome change transitions, `t = 0.5` morphs, `t = 1` with no changes
renders the full scatter. -/
theorem renderPath_dispatch_witness :
    selectRenderPath (1/5)
      (outcomeChangedFlag (1/5) OutcomeType.stunting OutcomeType.stunting)
      (phaseChangedFlag (1/5) ScatterPhase.dots ScatterPhase.dots) = RenderPath.map ∧
    selectRenderPath 1
      (outcomeChangedFlag 1 OutcomeType.stunting OutcomeType.consumption)
      (phaseChangedFlag 1 ScatterPhase.dots ScatterPhase.dots) =
        RenderPath.outcomeTransition ∧
    selectRenderPath (1/2)
      (outcomeChangedFlag (1/2) OutcomeType.stunting OutcomeType.stunting)
      (phaseChangedFlag (1/2) ScatterPhase.dots ScatterPhase.dots) =
        RenderPath.morphing ∧
    selectRenderPath 1
      (outcomeChangedFlag 1 OutcomeType.stunting OutcomeType.stunting)
      (phaseChangedFlag 1 ScatterPhase.dots ScatterPhase.dots) =
        RenderPath.fullScatter := by
  refine ⟨?_, ?_, ?_, ?_⟩
  · exact (renderPath_dispatch (1/5) OutcomeType.stunting OutcomeType.stunting
      ScatterPhase.dots ScatterPhase.dots).2.1 (by norm_num)
  · exact (renderPath_dispatch 1 OutcomeType.stunting OutcomeType.consumption
      ScatterPhase.dots ScatterPhase.dots).2.2.1 (by norm_num)
      (by simp [outcomeChangedFlag])
  · exact (renderPath_dispatch (1/2) OutcomeType.stunting OutcomeType.stunting
      ScatterPhase.dots ScatterPhase.dots).2.2.2.2.1 (by norm_num) (by norm_num)
      (by simp [outcomeChangedFlag]) (by simp [phaseChangedFlag])
  · exact (renderPath_dispatch 1 OutcomeType.stunting OutcomeType.stunting
      ScatterPhase.dots ScatterPhase.dots).2.2.2.2.2.1 (by norm_num)
      (by simp [outcomeChangedFlag]) (by simp [phaseChangedFlag])

/-- claim C5: on the morphing path the sub-progress equals the two-sided
clamp `clamp((t - morphStart)/(morphEnd - morphStart), 0, 1)`, never
falls below 0 and never exceeds 1, and one frame of `renderMorph` drives
district geometry and marker centers with the same eased sub-progress
`easeInOutQuad(morphT)`. -/
theorem morphT_clamp_spec (t : ℚ) (ht : 3/10 ≤ t) :
    morphTOf t = max 0 (min 1 ((t - morphStart) / (morphEnd - morphStart))) ∧
    0 ≤ morphTOf t ∧ morphTOf t ≤ 1 ∧
    ∀ (trig : TrigOracle) (proj : ℚ × ℚ → Option (ℚ × ℚ)) (xScale yScale : ℚ → ℚ)
      (xMax yZero dotFadeStart : ℚ) (data : List ScatterDataPoint),
      renderMorphFrame trig proj xScale yScale xMax yZero dotFadeStart data t =
        (renderMorphDistrictsLayer trig proj xScale yScale
          (easeInOutQuad (morphTOf t)) data,
         renderMorphingDotsLayer proj xScale yScale xMax yZero dotFadeStart
          (morphTOf t) (easeInOutQuad (morphTOf t)) data) := by
  have hr : 0 ≤ (t - morphStart) / (morphEnd - morphStart) := by
    unfold morphStart morphEnd
    exact div_nonneg (by linarith) (by norm_num)
  refine ⟨?_, ?_, ?_, ?_⟩
  · unfold morphTOf
    rw [max_eq_right (le_min zero_le_one hr), min_comm]
  · unfold morphTOf
    exact le_min hr zero_le_one
  · unfold morphTOf
    exact min_le_right _ _
  · intro trig proj xScale yScale xMax yZero dotFadeStart data
    rfl

/-- Witness for C5 at the concrete morphing frame `t = 0.5`. -/
theorem morphT_clamp_spec_witness :
    morphTOf (1/2) =
      max 0 (min 1 ((1/2 - morphStart) / (morphEnd - morphStart))) ∧
    0 ≤ morphTOf (1/2) ∧ morphTOf (1/2) ≤ 1 := by
  have h := morphT_clamp_spec (1/2) (by norm_num)
  exact ⟨h.1, h.2.1, h.2.2.1⟩

/-- claim C6: on the morphing path every rendered marker center stays
inside the plot bounds `[0, innerWidth] × [0, innerHeight]`, whatever
the raw linear blend of the projected map coordinate and the scatter
coordinate would give. -/
theorem morphingDot_clamped (proj : ℚ × ℚ → Option (ℚ × ℚ)) (xScale yScale : ℚ → ℚ)
    (xMax yZero e : ℚ) (d : ScatterDataPoint) (hx : 0 ≤ xMax) (hy : 0 ≤ yZero) :
    0 ≤ morphDotCx proj xScale xMax e d ∧ morphDotCx proj xScale xMax e d ≤ xMax ∧
    0 ≤ morphDotCy proj yScale yZero e d ∧ morphDotCy proj yScale yZero e d ≤ yZero := by
  unfold morphDotCx morphDotCy
  exact ⟨(clamp_mem _ _ hx).1, (clamp_mem _ _ hx).2,
    (clamp_mem _ _ hy).1, (clamp_mem _ _ hy).2⟩

/-- Witness for C6: a projected centroid far outside the 610×430 plot
still yields an in-bounds marker center. -/
theorem morphingDot_clamped_witness :
    0 ≤ morphDotCx (fun _ => some (-5000, 9000)) (createXScale 610) 610 (1/2) samplePoint ∧
    morphDotCx (fun _ => some (-5000, 9000)) (createXScale 610) 610 (1/2) samplePoint ≤ 610 ∧
    0 ≤ morphDotCy (fun _ => some (-5000, 9000)) (fun y => 430 - y) 430 (1/2) samplePoint ∧
    morphDotCy (fun _ => some (-5000, 9000)) (fun y => 430 - y) 430 (1/2) samplePoint ≤ 430 :=
  morphingDot_clamped (fun _ => some (-5000, 9000)) (createXScale 610) (fun y => 430 - y)
    610 430 (1/2) samplePoint (by norm_num) (by norm_num)

/-- claim C7: the morphing marker center is continuous at both endpoints
of the interpolation — at sub-progress 0 it equals the projected
geographic centroid, at sub-progress 1 it equals the final scatter
coordinate, exactly (the clamp is the identity because both endpoints
lie inside the plot bounds). -/
theorem morphingDot_endpoints (proj : ℚ × ℚ → Option (ℚ × ℚ)) (xScale yScale : ℚ → ℚ)
    (xMax yZero : ℚ) (d : ScatterDataPoint) (px py : ℚ)
    (hproj : proj (d.centroidLon, d.centroidLat) = some (px, py))
    (hpx0 : 0 ≤ px) (hpx1 : px ≤ xMax) (hpy0 : 0 ≤ py) (hpy1 : py ≤ yZero)
    (hsx0 : 0 ≤ xScale d.scatterX) (hsx1 : xScale d.scatterX ≤ xMax)
    (hsy0 : 0 ≤ yScale d.scatterY) (hsy1 : yScale d.scatterY ≤ yZero) :
    easeInOutQuad 0 = 0 ∧ easeInOutQuad 1 = 1 ∧
    morphDotCx proj xScale xMax (easeInOutQuad 0) d = px ∧
    morphDotCy proj yScale yZero (easeInOutQuad 0) d = py ∧
    morphDotCx proj xScale xMax (easeInOutQuad 1) d = xScale d.scatterX ∧
    morphDotCy proj yScale yZero (easeInOutQuad 1) d = yScale d.scatterY := by
  have he0 : easeInOutQuad 0 = 0 := by norm_num [easeInOutQuad]
  have he1 : easeInOutQuad 1 = 1 := by norm_num [easeInOutQuad]
  refine ⟨he0, he1, ?_, ?_, ?_, ?_⟩
  · simp only [morphDotCx, hproj, he0]
    rw [show px + (xScale d.scatterX - px) * 0 = px by ring]
    exact clamp_id _ _ hpx0 hpx1
  · simp only [morphDotCy, hproj, he0]
    rw [show py + (yScale d.scatterY - py) * 0 = py by ring]
    exact clamp_id _ _ hpy0 hpy1
  · simp only [morphDotCx, hproj, he1]
    rw [show px + (xScale d.scatterX - px) * 1 = xScale d.scatterX by ring]
    exact clamp_id _ _ hsx0 hsx1
  · simp only [morphDotCy, hproj, he1]
    rw [show py + (yScale d.scatterY - py) * 1 = yScale d.scatterY by ring]
    exact clamp_id _ _ hsy0 hsy1

/-- Witness for C7: a concrete in-frame centroid (100, 50) and constant
scales on the 610×430 plot. -/
theorem morphingDot_endpoints_witness :
    morphDotCx (fun _ => some (100, 50)) (fun _ => 300) 610 (easeInOutQuad 0) samplePoint = 100 ∧
    morphDotCy (fun _ => some (100, 50)) (fun _ => 200) 430 (easeInOutQuad 0) samplePoint = 50 ∧
    morphDotCx (fun _ => some (100, 50)) (fun _ => 300) 610 (easeInOutQuad 1) samplePoint = 300 ∧
    morphDotCy (fun _ => some (100, 50)) (fun _ => 200) 430 (easeInOutQuad 1) samplePoint = 200 := by
  have h := morphingDot_endpoints (fun _ => some (100, 50)) (fun _ => 300) (fun _ => 200)
    610 430 samplePoint 100 50 rfl (by norm_num) (by norm_num) (by norm_num) (by norm_num)
    (by norm_num) (by norm_num) (by norm_num) (by norm_num)
  exact ⟨h.2.2.1, h.2.2.2.1, h.2.2.2.2.1, h.2.2.2.2.2⟩

/-- Membership in the fold that accumulates the boundary set: a ubigeo
is collected exactly when it was already present or some listed pair
shares an edge and contributes it. -/
lemma mem_boundary_foldl (l : List (MergedDistrictData × MergedDistrictData))
    (s : Finset ℕ) (u : ℕ) :
    u ∈ l.foldl
      (fun s ab =>
        if polygonsShareEdge ab.1.polygon ab.2.polygon
        then insert ab.1.ubigeo (insert ab.2.ubigeo s)
        else s) s ↔
    u ∈ s ∨ ∃ ab ∈ l, polygonsShareEdge ab.1.polygon ab.2.polygon = true ∧
      (u = ab.1.ubigeo ∨ u = ab.2.ubigeo) := by
  induction l generalizing s with
  | nil => simp
  | cons hd tl ih =>
    simp only [List.foldl_cons, ih, List.mem_cons]
    by_cases h : polygonsShareEdge hd.1.polygon hd.2.polygon = true
    · simp only [h, if_true, Finset.mem_insert]
      constructor
      · rintro ((h1 | h2 | h3) | ⟨ab, hab, hsh, hu⟩)
        · exact Or.inr ⟨hd, Or.inl rfl, h, Or.inl h1⟩
        · exact Or.inr ⟨hd, Or.inl rfl, h, Or.inr h2⟩
        · exact Or.inl h3
        · exact Or.inr ⟨ab, Or.inr hab, hsh, hu⟩
      · rintro (hs | ⟨ab, (rfl | hab), hsh, hu⟩)
        · exact Or.inl (Or.inr (Or.inr hs))
        · rcases hu with h1 | h2
          · exact Or.inl (Or.inl h1)
          · exact Or.inl (Or.inr (Or.inl h2))
        · exact Or.inr ⟨ab, hab, hsh, hu⟩
    · rw [if_neg h]
      constructor
      · rintro (hs | ⟨ab, hab, hsh, hu⟩)
        · exact Or.inl hs
        · exact Or.inr ⟨ab, Or.inr hab, hsh, hu⟩
      · rintro (hs | ⟨ab, (rfl | hab), hsh, hu⟩)
        · exact Or.inl hs
        · exact absurd hsh h
        · exact Or.inr ⟨ab, hab, hsh, hu⟩

/-- claim C9: a ubigeo is in the boundary set exactly when some
(mita, non-mita) pair passes the bounding-box prefilter and matches at
least 2 vertex pairs within tolerance and contributes it, and whenever a
pair shares an edge both sides' ubigeos are in the set (symmetry); a
pair with 0 or 1 matching vertices contributes neither. -/
theorem boundarySet_spec (data : List MergedDistrictData) :
    (∀ u : ℕ, u ∈ computeBoundaryDistricts data ↔
      ∃ a ∈ data, ∃ b ∈ data, a.mita = 1 ∧ b.mita = 0 ∧
        bboxOverlap a.polygon b.polygon = true ∧
        2 ≤ sharedVertexCount a.polygon b.polygon ∧
        (u = a.ubigeo ∨ u = b.ubigeo)) ∧
    (∀ a ∈ data, ∀ b ∈ data, a.mita = 1 → b.mita = 0 →
      polygonsShareEdge a.polygon b.polygon = true →
      a.ubigeo ∈ computeBoundaryDistricts data ∧
      b.ubigeo ∈ computeBoundaryDistricts data) := by
  have hshare : ∀ p1 p2, polygonsShareEdge p1 p2 = true ↔
      bboxOverlap p1 p2 = true ∧ 2 ≤ sharedVertexCount p1 p2 := by
    intro p1 p2
    simp [polygonsShareEdge]
  have hmem : ∀ u : ℕ, u ∈ computeBoundaryDistricts data ↔
      ∃ a ∈ data, ∃ b ∈ data, a.mita = 1 ∧ b.mita = 0 ∧
        bboxOverlap a.polygon b.polygon = true ∧
        2 ≤ sharedVertexCount a.polygon b.polygon ∧
        (u = a.ubigeo ∨ u = b.ubigeo) := by
    intro u
    unfold computeBoundaryDistricts
    rw [mem_boundary_foldl]
    simp only [Finset.not_mem_empty, false_or]
    constructor
    · rintro ⟨⟨a, b⟩, hab, hsh, hu⟩
      obtain ⟨ha, hb⟩ := List.pair_mem_product.mp hab
      obtain ⟨hamem, ha1⟩ := List.mem_filter.mp ha
      obtain ⟨hbmem, hb0⟩ := List.mem_filter.mp hb
      obtain ⟨hov, hcnt⟩ := (hshare _ _).mp hsh
      exact ⟨a, hamem, b, hbmem, of_decide_eq_true ha1, of_decide_eq_true hb0,
        hov, hcnt, hu⟩
    · rintro ⟨a, ha, b, hb, ha1, hb0, hov, hcnt, hu⟩
      refine ⟨(a, b), List.pair_mem_product.mpr
        ⟨List.mem_filter.mpr ⟨ha, by simp [ha1]⟩,
         List.mem_filter.mpr ⟨hb, by simp [hb0]⟩⟩, (hshare _ _).mpr ⟨hov, hcnt⟩, hu⟩
  refine ⟨hmem, ?_⟩
  intro a ha b hb ha1 hb0 hsh
  obtain ⟨hov, hcnt⟩ := (hshare _ _).mp hsh
  exact ⟨(hmem a.ubigeo).mpr ⟨a, ha, b, hb, ha1, hb0, hov, hcnt, Or.inl rfl⟩,
    (hmem b.ubigeo).mpr ⟨a, ha, b, hb, ha1, hb0, hov, hcnt, Or.inr rfl⟩⟩

/-- Witness for C9: the two concrete adjacent districts (sharing
vertices (0,0) and (0,1)) both enter the boundary set. -/
theorem boundarySet_spec_witness :
    101 ∈ computeBoundaryDistricts [sampleMitaDistrict, sampleNonMitaDistrict] ∧
    202 ∈ computeBoundaryDistricts [sampleMitaDistrict, sampleNonMitaDistrict] := by
  have hsh : polygonsShareEdge sampleMitaDistrict.polygon
      sampleNonMitaDistrict.polygon = true := by
    norm_num [polygonsShareEdge, bboxOverlap, getBBox, sharedVertexCount,
      verticesMatch, VERTEX_TOLERANCE, List.product, sampleMitaDistrict,
      sampleNonMitaDistrict]
  have h := (boundarySet_spec [sampleMitaDistrict, sampleNonMitaDistrict]).2
    sampleMitaDistrict (by simp) sampleNonMitaDistrict (by simp) rfl rfl hsh
  exact h

/-- claim C1: every aligned primitive — full-scatter markers, morphing
markers, outcome-transition markers, fitted lines, and the
background/axis/polygon layers — is a child of the `.main-group`
container with no translation of its own, and the main group is the
single carrier of the margin translate. -/
theorem alignment_invariant :
    (∀ (xScale yScale : ℚ → ℚ) (xMax yZero : ℚ) (data : List ScatterDataPoint),
      (fullScatterDotPrimitives xScale yScale xMax yZero data).all
        (fun p => decide (p.parent = SvgParent.mainGroup ∧ p.ownTranslate = none)) = true) ∧
    (∀ (proj : ℚ × ℚ → Option (ℚ × ℚ)) (xScale yScale : ℚ → ℚ) (xMax yZero e : ℚ)
       (data : List ScatterDataPoint),
      (morphingDotPrimitives proj xScale yScale xMax yZero e data).all
        (fun p => decide (p.parent = SvgParent.mainGroup ∧ p.ownTranslate = none)) = true) ∧
    (∀ (xScale yScale : ℚ → ℚ) (xMax yZero : ℚ) (o : OutcomeType)
       (allData : List ScatterDataPoint),
      (outcomeTransitionDotPrimitives xScale yScale xMax yZero o allData).all
        (fun p => decide (p.parent = SvgParent.mainGroup ∧ p.ownTranslate = none)) = true) ∧
    (∀ endpoints : List (ℚ × ℚ),
      (fittedLinePrimitives endpoints).all
        (fun p => decide (p.parent = SvgParent.mainGroup ∧ p.ownTranslate = none)) = true) ∧
    (∀ (layerClass : String) (coords : List (ℚ × ℚ)),
      (staticLayerPrimitives layerClass coords).all
        (fun p => decide (p.parent = SvgParent.mainGroup ∧ p.ownTranslate = none)) = true) ∧
    (∀ m : Margin, mainGroupTranslate m = (m.left, m.top)) := by
  refine ⟨?_, ?_, ?_, ?_, ?_, fun m => rfl⟩
  · intro xScale yScale xMax yZero data
    simp [fullScatterDotPrimitives, List.all_eq_true]
  · intro proj xScale yScale xMax yZero e data
    simp [morphingDotPrimitives, List.all_eq_true]
  · intro xScale yScale xMax yZero o allData
    simp [outcomeTransitionDotPrimitives, List.all_eq_true]
  · intro endpoints
    simp only [fittedLinePrimitives, List.all_eq_true, List.mem_map, decide_eq_true_eq]
    rintro p ⟨c, hc, rfl⟩
    exact ⟨rfl, rfl⟩
  · intro layerClass coords
    simp only [staticLayerPrimitives, List.all_eq_true, List.mem_map, decide_eq_true_eq]
    rintro p ⟨c, hc, rfl⟩
    exact ⟨rfl, rfl⟩

/-- Counterexample to claim C10 as stated: with a projection that fails
on every input, the morphing-dot layer still renders a marker for the
sample point — at the clamped blend of the fallback coordinate 0 with
the scatter target — instead of contributing nothing. -/
theorem projectionFailure_counterexample :
    renderMorphingDotsLayer (fun _ => none) (fun x => x) (fun y => y) 610 430
      (1/10) (1/2) (1/2) [samplePoint] = [(25/2, 6)] ∧
    ([(25/2, 6)] : List (ℚ × ℚ)) ≠ ([] : List (ℚ × ℚ)) := by
  constructor
  · have hgate : ¬((1:ℚ)/2 ≤ 1/10) := by norm_num
    rw [renderMorphingDotsLayer, if_neg hgate]
    norm_num [morphDotCx, morphDotCy, samplePoint, toScatterPoint, sampleMerged,
      getOutcomeValue]
  · simp

/-- claim C10 (amended): a failed centroid projection, or fewer than 3
projectable polygon vertices, makes the morphing district path
contribute nothing for the frame, and each district's contribution is
independent of the rest of the list; the morphing dot markers, however,
are not skipped — a failed centroid projection falls back to map
coordinate 0 and the marker is drawn at the clamped interpolated
position; no path throws. -/
theorem projectionFailure_amended :
    (∀ (trig : TrigOracle) (proj : ℚ × ℚ → Option (ℚ × ℚ)) (xScale yScale : ℚ → ℚ)
       (e : ℚ) (d : ScatterDataPoint),
      proj (d.centroidLon, d.centroidLat) = none →
      renderMorphingDistrictPath trig proj xScale yScale e d = none) ∧
    (∀ (trig : TrigOracle) (proj : ℚ × ℚ → Option (ℚ × ℚ)) (xScale yScale : ℚ → ℚ)
       (e : ℚ) (d : ScatterDataPoint),
      (d.polygon.filterMap (fun p => proj (p.2, p.1))).length < 3 →
      renderMorphingDistrictPath trig proj xScale yScale e d = none) ∧
    (∀ (trig : TrigOracle) (proj : ℚ × ℚ → Option (ℚ × ℚ)) (xScale yScale : ℚ → ℚ)
       (e : ℚ) (pre post : List ScatterDataPoint) (d : ScatterDataPoint),
      renderMorphDistrictsLayer trig proj xScale yScale e (pre ++ d :: post) =
        renderMorphDistrictsLayer trig proj xScale yScale e pre ++
          renderMorphingDistrictPath trig proj xScale yScale e d ::
            renderMorphDistrictsLayer trig proj xScale yScale e post) ∧
    (∀ (proj : ℚ × ℚ → Option (ℚ × ℚ)) (xScale : ℚ → ℚ) (xMax e : ℚ)
       (d : ScatterDataPoint),
      proj (d.centroidLon, d.centroidLat) = none →
      morphDotCx proj xScale xMax e d =
        max 0 (min xMax (0 + (xScale d.scatterX - 0) * e))) ∧
    (∀ (proj : ℚ × ℚ → Option (ℚ × ℚ)) (yScale : ℚ → ℚ) (yZero e : ℚ)
       (d : ScatterDataPoint),
      proj (d.centroidLon, d.centroidLat) = none →
      morphDotCy proj yScale yZero e d =
        max 0 (min yZero (0 + (yScale d.scatterY - 0) * e))) := by
  refine ⟨?_, ?_, ?_, ?_, ?_⟩
  · intro trig proj xScale yScale e d h
    simp only [renderMorphingDistrictPath, h]
  · intro trig proj xScale yScale e d h
    cases hp : proj (d.centroidLon, d.centroidLat) with
    | none => simp only [renderMorphingDistrictPath, hp]
    | some c =>
      simp only [renderMorphingDistrictPath, hp]
      rw [if_pos h]
  · intro trig proj xScale yScale e pre post d
    simp [renderMorphDistrictsLayer]
  · intro proj xScale xMax e d h
    simp only [morphDotCx, h]
  · intro proj yScale yZero e d h
    simp only [morphDotCy, h]

/-- Witness for the amended C10 on a concrete always-failing
projection: the district path is skipped while the dot is drawn at the
0-fallback blend. -/
theorem projectionFailure_amended_witness :
    renderMorphingDistrictPath
      { sqrtQ := fun _ => 0, cosQ := fun _ => 0, sinQ := fun _ => 0,
        atan2Q := fun _ _ => 0 }
      (fun _ => none) (fun x => x) (fun y => y) (1/2) samplePoint = none ∧
    morphDotCx (fun _ => none) (fun x => x) 610 (1/2) samplePoint =
      max 0 (min 610 (0 + (samplePoint.scatterX - 0) * (1/2))) := by
  constructor
  · exact projectionFailure_amended.1 _ (fun _ => none) (fun x => x) (fun y => y)
      (1/2) samplePoint rfl
  · exact projectionFailure_amended.2.2.2.1 (fun _ => none) (fun x => x) 610 (1/2)
      samplePoint rfl

end Mita
